import Mathlib

/-!
Shallow embedding of `src/BatcavePlanner/shared/schema.ts` (drizzle + zod
schema module of the BATCAVE task-tracking app), and proofs about its
validation schemas.

Modelling conventions:
* A JavaScript runtime value arriving at a zod schema is a `Value`:
  a string, a finite number (modelled as `ℚ`), `NaN` (the result of
  `parseFloat` on unparsable text, kept as a separate constructor since
  zod's `z.number()` rejects it), a boolean, `null`, or a `Date`
  (modelled as an integer timestamp).
* A zod object schema is a list of `Field`s: a field name, the field's
  value schema (`Value → Option Value`, `none` = validation failure),
  and whether the field is optional.  `parseFields` is zod's object
  parse with the default unknown-key stripping: declared fields are
  looked up in the input, required fields must be present, optional
  missing fields are dropped, and any input key that is not a declared
  field never reaches the output.
* `createInsertSchema` (drizzle-zod) maps each column to a zod type:
  `text`/`varchar` → string, `integer` → number with an integrality
  check, `boolean` → boolean, `timestamp` → date, `numeric` → string
  (postgres numerics are surfaced as decimal text); a column with a
  database default becomes optional, a nullable column becomes
  nullable-and-optional, and a `notNull` column with no default is
  required.
* `.omit`, `.partial`, `.extend` are `omitFields`, `optionalAll`,
  `extendFields`; `.extend` replaces an existing key in place (object
  spread keeps the original key position) and appends new keys.
-/

namespace Batcave

/-- A JavaScript value at the validation boundary. -/
inductive Value where
  | vStr (s : String)
  | vNum (q : ℚ)
  | vNaN
  | vBool (b : Bool)
  | vNull
  | vDate (t : ℤ)
deriving DecidableEq, Repr

/-- A JS object as an association list of fields (first binding wins). -/
abbrev Obj := List (String × Value)

/-- Key lookup in an object, first match. -/
def lookupField : Obj → String → Option Value
  | [], _ => none
  | (k, v) :: rest, key => if k = key then some v else lookupField rest key

/-- Whether an object has a binding for a key. -/
def hasKeyB (o : Obj) (k : String) : Bool :=
  o.any (fun kv => kv.1 == k)

/-- One declared field of a zod object schema: its key, its value
schema (`none` = validation failure) and whether it is optional. -/
structure Field where
  name : String
  sch : Value → Option Value
  opt : Bool

/-- A zod object schema: its declared fields in declaration order. -/
abbrev Schema := List Field

/-- Processing of one declared field given its lookup result and the
parse of the remaining fields: a missing optional field is skipped, a
missing required field fails, a present field runs its value schema and
its validated value is prepended to the remaining output. -/
def applyField (f : Field) (res : Option Value) (rest : Option Obj) : Option Obj :=
  match res with
  | none => if f.opt then rest else none
  | some v => (f.sch v).bind (fun w => rest.map (fun r => (f.name, w) :: r))

/-- Zod object parsing with default unknown-key stripping: each declared
field is looked up in the input and processed by `applyField`.  Keys of
the input that are not declared fields never reach the output. -/
def parseFields : Schema → Obj → Option Obj
  | [], _ => some []
  | f :: fs, input => applyField f (lookupField input f.name) (parseFields fs input)

/-- The parse result has no binding for key `k` (vacuously on failure). -/
def noKeyOut (r : Option Obj) (k : String) : Bool :=
  match r with
  | none => true
  | some o => !hasKeyB o k

/-- Digits to a natural number, most significant first. -/
def digitsToNat (cs : List Char) : ℕ :=
  cs.foldl (fun a c => a * 10 + (c.toNat - 48)) 0

/-- Model of JavaScript `parseFloat`: skip leading whitespace, optional
sign, longest prefix of the form `digits [. digits] [e|E [sign] digits]`
with at least one mantissa digit; `none` models the `NaN` result when no
numeric prefix exists.  The value `m.f * 10^e` is assembled with `mkRat`
over integer arithmetic. -/
def parseFloatQ (s : String) : Option ℚ :=
  let cs := s.data.dropWhile (fun c => c == ' ' || c == '\t' || c == '\n' || c == '\r')
  let sgn : ℤ := match cs with
    | '-' :: _ => -1
    | _ => 1
  let cs1 := match cs with
    | '-' :: r => r
    | '+' :: r => r
    | _ => cs
  let ip := cs1.takeWhile Char.isDigit
  let cs2 := cs1.dropWhile Char.isDigit
  let fp := match cs2 with
    | '.' :: r => r.takeWhile Char.isDigit
    | _ => []
  let cs3 := match cs2 with
    | '.' :: r => r.dropWhile Char.isDigit
    | _ => cs2
  if ip.isEmpty && fp.isEmpty then none
  else
    let mantNum : ℤ := sgn * ((digitsToNat ip * 10 ^ fp.length + digitsToNat fp : ℕ) : ℤ)
    let expDigits : Bool × List Char := match cs3 with
      | 'e' :: '-' :: r => (true, r.takeWhile Char.isDigit)
      | 'e' :: '+' :: r => (false, r.takeWhile Char.isDigit)
      | 'e' :: r => (false, r.takeWhile Char.isDigit)
      | 'E' :: '-' :: r => (true, r.takeWhile Char.isDigit)
      | 'E' :: '+' :: r => (false, r.takeWhile Char.isDigit)
      | 'E' :: r => (false, r.takeWhile Char.isDigit)
      | _ => (false, [])
    if expDigits.2.isEmpty then some (mkRat mantNum (10 ^ fp.length))
    else if expDigits.1 then some (mkRat mantNum (10 ^ (fp.length + digitsToNat expDigits.2)))
    else some (mkRat (mantNum * 10 ^ digitsToNat expDigits.2) (10 ^ fp.length))

/-- `parseFloat` as a `Value`: `NaN` when no numeric prefix parses. -/
def parseFloat (s : String) : Value :=
  match parseFloatQ s with
  | none => Value.vNaN
  | some q => Value.vNum q

/-- Zod `z.string()`. -/
def zString : Value → Option Value
  | Value.vStr s => some (Value.vStr s)
  | _ => none

/-- Zod `z.boolean()`. -/
def zBooleanField : Value → Option Value
  | Value.vBool b => some (Value.vBool b)
  | _ => none

/-- Zod `z.date()`. -/
def zDateField : Value → Option Value
  | Value.vDate t => some (Value.vDate t)
  | _ => none

/-- Zod `z.number().int()` (integer columns): a finite number whose
denominator is 1; `NaN` and non-numbers are rejected. -/
def zNumberInt : Value → Option Value
  | Value.vNum q => if q.den = 1 then some (Value.vNum q) else none
  | _ => none

/-- Zod `.nullable()`: `null` passes through, otherwise the inner schema runs. -/
def zNullable (f : Value → Option Value) : Value → Option Value
  | Value.vNull => some Value.vNull
  | v => f v

/-- Zod `multipleOf` check on exact rationals: `q` is an integer multiple
of `step`, that is `q / step` is an integer.  Since
`q / step = (q.num * step.den) / (q.den * step.num)`, this holds exactly
when the denominator divides the numerator, phrased here as an integer
remainder test so that it evaluates by integer arithmetic. -/
def isMultipleOf (step q : ℚ) : Bool :=
  (q.num * (step.den : ℤ)) % (step.num * (q.den : ℤ)) == 0

/-- Zod `z.number().min(lo).max(hi).multipleOf(step)`: a finite number
within the bounds that is a multiple of the step; `NaN` and non-numbers
are rejected. -/
def zNumberRange (lo hi step : ℚ) : Value → Option Value
  | Value.vNum q =>
    if decide (lo ≤ q) && decide (q ≤ hi) && isMultipleOf step q then
      some (Value.vNum q)
    else none
  | _ => none

/-- Zod `.omit`: drop the named fields. -/
def omitFields (s : Schema) (names : List String) : Schema :=
  s.filter (fun f => !(names.contains f.name))

/-- Zod `.partial()`: every field becomes optional. -/
def optionalAll (s : Schema) : Schema :=
  s.map (fun f => { f with opt := true })

/-- Zod `.extend`: replace an existing field in place (object spread
keeps the original key position), append fields with new keys. -/
def extendFields (s : Schema) (exts : List Field) : Schema :=
  (s.map (fun f =>
    match exts.find? (fun g => g.name == f.name) with
    | some g => g
    | none => f))
  ++ exts.filter (fun g => !(s.any (fun f => f.name == g.name)))

/-- `createInsertSchema(users)`: `id` has a database default so it is
optional; `username` and `password` are `notNull` without defaults. -/
def createInsertSchemaUsers : Schema :=
  [⟨"id", zString, true⟩,
   ⟨"username", zString, false⟩,
   ⟨"password", zString, false⟩]

/-- `insertUserSchema = createInsertSchema(users).omit({ id: true })`. -/
def insertUserSchema : Schema :=
  omitFields createInsertSchemaUsers ["id"]

/-- `createInsertSchema(tasks)`: columns with database defaults
(`id`, `priority`, `estimatedHours`, `xpReward`, `euReward`,
`isCompleted`, `createdAt`, `updatedAt`) are optional, nullable columns
(`description`, `actualHours`, `completedAt`, `dueDate`) are nullable
and optional, the rest are required; `numeric` columns surface as
strings, `timestamp` columns as dates. -/
def createInsertSchemaTasks : Schema :=
  [⟨"id", zString, true⟩,
   ⟨"userId", zString, false⟩,
   ⟨"title", zString, false⟩,
   ⟨"description", zNullable zString, true⟩,
   ⟨"domain", zString, false⟩,
   ⟨"priority", zString, true⟩,
   ⟨"estimatedHours", zString, true⟩,
   ⟨"actualHours", zNullable zString, true⟩,
   ⟨"xpReward", zNumberInt, true⟩,
   ⟨"euReward", zNumberInt, true⟩,
   ⟨"isCompleted", zBooleanField, true⟩,
   ⟨"completedAt", zNullable zDateField, true⟩,
   ⟨"dueDate", zNullable zDateField, true⟩,
   ⟨"createdAt", zDateField, true⟩,
   ⟨"updatedAt", zDateField, true⟩]

/-- `insertTaskSchema = createInsertSchema(tasks).omit({ id, xpReward,
euReward, isCompleted, completedAt, createdAt, updatedAt })`. -/
def insertTaskSchema : Schema :=
  omitFields createInsertSchemaTasks
    ["id", "xpReward", "euReward", "isCompleted", "completedAt",
     "createdAt", "updatedAt"]

/-- `updateTaskSchema = createInsertSchema(tasks).omit({ id, userId,
xpReward, euReward, createdAt, updatedAt }).partial()`. -/
def updateTaskSchema : Schema :=
  optionalAll (omitFields createInsertSchemaTasks
    ["id", "userId", "xpReward", "euReward", "createdAt", "updatedAt"])

/-- `numericFieldTransform = z.string().transform((val) => parseFloat(val))`:
any string is accepted and mapped through `parseFloat` (no refinement,
so the transform itself never fails on a string). -/
def numericFieldTransform : Value → Option Value
  | Value.vStr s => some (parseFloat s)
  | _ => none

/-- `clientTaskSchema = insertTaskSchema.extend({ estimatedHours:
z.number().min(0.5).max(24).multipleOf(0.5), dueDate:
z.string().optional() }).omit({ userId: true })`. -/
def clientTaskSchema : Schema :=
  omitFields
    (extendFields insertTaskSchema
      [⟨"estimatedHours", zNumberRange (mkRat 1 2) 24 (mkRat 1 2), false⟩,
       ⟨"dueDate", zString, true⟩])
    ["userId"]

/-- `clientUpdateTaskSchema = updateTaskSchema.extend({ actualHours:
z.number().min(0.1).max(100).multipleOf(0.1).optional(), estimatedHours:
z.number().min(0.5).max(24).multipleOf(0.5).optional(), dueDate:
z.string().optional() }).omit({ completedAt: true })`. -/
def clientUpdateTaskSchema : Schema :=
  omitFields
    (extendFields updateTaskSchema
      [⟨"actualHours", zNumberRange (mkRat 1 10) 100 (mkRat 1 10), true⟩,
       ⟨"estimatedHours", zNumberRange (mkRat 1 2) 24 (mkRat 1 2), true⟩,
       ⟨"dueDate", zString, true⟩])
    ["completedAt"]

/-- The `actualHours` field of `taskResponseSchema`:
`z.string().transform((val) => val ? parseFloat(val) : null).nullable()`.
The only falsy string is the empty string, so a present non-null value
must be a string, maps to `null` when empty and through `parseFloat`
otherwise; `null` itself passes through the `.nullable()` wrapper. -/
def actualHoursResponse : Value → Option Value :=
  zNullable (fun v =>
    match v with
    | Value.vStr s => some (if s = "" then Value.vNull else parseFloat s)
    | _ => none)

/-- `taskResponseSchema = createInsertSchema(tasks).extend({
estimatedHours: numericFieldTransform, actualHours: ... }).omit({})`.
The extended fields carry no `.optional()`, so both hour fields become
required (`actualHours` nullable but required). -/
def taskResponseSchema : Schema :=
  omitFields
    (extendFields createInsertSchemaTasks
      [⟨"estimatedHours", numericFieldTransform, false⟩,
       ⟨"actualHours", actualHoursResponse, false⟩])
    []

/-- An otherwise-valid client create payload (required `title` and
`domain` supplied) carrying the given `estimatedHours` value. -/
def clientCreatePayload (v : Value) : Obj :=
  [("title", Value.vStr "t"), ("domain", Value.vStr "academic"), ("estimatedHours", v)]

/-- A client update payload carrying only `actualHours` (every field of
the update schema is optional, so nothing else is needed). -/
def clientUpdatePayload (v : Value) : Obj :=
  [("actualHours", v)]

/-- A persisted row as consumed by the response transform: required
columns plus the two decimal-text hour fields under test. -/
def persistedRow (est actual : Value) : Obj :=
  [("userId", Value.vStr "u"), ("title", Value.vStr "t"), ("domain", Value.vStr "academic"),
   ("estimatedHours", est), ("actualHours", actual)]

/-- Unfolding equation of `parseFields` on the empty schema. -/
theorem parseFields_nil (input : Obj) : parseFields [] input = some [] := rfl

/-- Unfolding equation of `parseFields` on a schema with a head field. -/
theorem parseFields_cons (f : Field) (fs : Schema) (input : Obj) :
    parseFields (f :: fs) input =
      applyField f (lookupField input f.name) (parseFields fs input) := rfl

/-- Mapping preserves definedness of an optional value. -/
theorem isSome_map {α β : Type} (f : α → β) (x : Option α) :
    (x.map f).isSome = x.isSome := by
  cases x <;> rfl

/-- Definedness of an if-then-else between `some` and `none` is the condition. -/
theorem isSome_ite {α : Type} (b : Bool) (x : α) :
    (if b = true then some x else none).isSome = b := by
  cases b <;> rfl

/-- Every key of a successful parse is a declared field name: parsing
can only emit bindings for fields of the schema. -/
theorem parse_any_name {fs : Schema} {input out : Obj} {k : String}
    (h : parseFields fs input = some out) (hk : hasKeyB out k = true) :
    fs.any (fun f => f.name == k) = true := by
  induction fs generalizing out with
  | nil =>
    rw [parseFields_nil] at h
    cases h
    simp [hasKeyB] at hk
  | cons f fs ih =>
    rw [parseFields_cons] at h
    cases hl : lookupField input f.name with
    | none =>
      rw [hl] at h
      cases ho : f.opt with
      | false => simp [applyField, ho] at h
      | true =>
        simp only [applyField, ho, if_true] at h
        simp only [List.any_cons, ih h hk, Bool.or_true]
    | some v =>
      rw [hl] at h
      cases hs : f.sch v with
      | none => simp [applyField, hs] at h
      | some w =>
        simp only [applyField, hs, Option.some_bind] at h
        rcases Option.map_eq_some'.mp h with ⟨rest, hrest, hout⟩
        subst hout
        simp only [hasKeyB, List.any_cons] at hk
        cases hfk : (f.name == k) with
        | true => simp only [List.any_cons, hfk, Bool.true_or]
        | false =>
          rw [hfk] at hk
          simp only [Bool.false_or] at hk
          simp only [List.any_cons,
            ih hrest (by simpa [hasKeyB] using hk), Bool.or_true]

/-- When no declared field of a schema has name `k`, a parse through the
schema never emits a binding for `k`. -/
theorem noKeyOut_of_not_name {fs : Schema} {k : String}
    (hn : fs.any (fun f => f.name == k) = false) (input : Obj) :
    noKeyOut (parseFields fs input) k = true := by
  unfold noKeyOut
  cases h : parseFields fs input with
  | none => rfl
  | some out =>
    cases hk : hasKeyB out k with
    | false => simp [hk]
    | true => exact absurd (parse_any_name h hk) (by simp [hn])

/-- A declared field present in the input whose value schema rejects its
value makes the whole object parse fail. -/
theorem parse_fail_of_field_fail {fs : Schema} {input : Obj} {f : Field} {v : Value}
    (hf : f ∈ fs) (hl : lookupField input f.name = some v) (hs : f.sch v = none) :
    parseFields fs input = none := by
  induction fs with
  | nil => cases hf
  | cons g fs ih =>
    rw [parseFields_cons]
    rcases List.mem_cons.mp hf with rfl | hf2
    · rw [hl]
      simp [applyField, hs]
    · cases hl2 : lookupField input g.name with
      | none => simp [applyField, ih hf2]
      | some w =>
        cases hs2 : g.sch w with
        | none => simp [applyField, hs2]
        | some w2 => simp [applyField, hs2, ih hf2]

/-- A required field of a schema with distinct field names is looked up
in the input, validated, and bound in the output of a successful parse. -/
theorem parse_required_out {fs : Schema} {input out : Obj} {f : Field}
    (hnd : (fs.map Field.name).Nodup) (hf : f ∈ fs) (hreq : f.opt = false)
    (h : parseFields fs input = some out) :
    ∃ v w, lookupField input f.name = some v ∧ f.sch v = some w ∧
      lookupField out f.name = some w := by
  induction fs generalizing out with
  | nil => cases hf
  | cons g fs ih =>
    rw [parseFields_cons] at h
    rcases List.mem_cons.mp hf with rfl | hf2
    · cases hl : lookupField input f.name with
      | none =>
        rw [hl] at h
        simp [applyField, hreq] at h
      | some v =>
        rw [hl] at h
        cases hs : f.sch v with
        | none => simp [applyField, hs] at h
        | some w =>
          simp only [applyField, hs, Option.some_bind] at h
          rcases Option.map_eq_some'.mp h with ⟨rest, hrest, hout⟩
          subst hout
          exact ⟨v, w, rfl, hs, by simp [lookupField]⟩
    · have hgf : g.name ≠ f.name := by
        intro he
        exact (List.nodup_cons.mp hnd).1 (he ▸ List.mem_map_of_mem Field.name hf2)
      have hnd2 := (List.nodup_cons.mp hnd).2
      cases hl2 : lookupField input g.name with
      | none =>
        rw [hl2] at h
        cases ho : g.opt with
        | true =>
          simp only [applyField, ho, if_true] at h
          exact ih hnd2 hf2 h
        | false => simp [applyField, ho] at h
      | some v2 =>
        rw [hl2] at h
        cases hs2 : g.sch v2 with
        | none => simp [applyField, hs2] at h
        | some w2 =>
          simp only [applyField, hs2, Option.some_bind] at h
          rcases Option.map_eq_some'.mp h with ⟨rest, hrest, hout⟩
          subst hout
          obtain ⟨v3, w3, h1, h2, h3⟩ := ih hnd2 hf2 hrest
          exact ⟨v3, w3, h1, h2, by simpa [lookupField, hgf] using h3⟩

/-- Explicit field list of `updateTaskSchema`: the omissions drop `id`,
`userId`, the reward fields and the server timestamps, and `.partial()`
leaves every remaining field optional — including `isCompleted` and
`completedAt`. -/
theorem updateTaskSchema_eq :
    updateTaskSchema =
      [⟨"title", zString, true⟩,
       ⟨"description", zNullable zString, true⟩,
       ⟨"domain", zString, true⟩,
       ⟨"priority", zString, true⟩,
       ⟨"estimatedHours", zString, true⟩,
       ⟨"actualHours", zNullable zString, true⟩,
       ⟨"isCompleted", zBooleanField, true⟩,
       ⟨"completedAt", zNullable zDateField, true⟩,
       ⟨"dueDate", zNullable zDateField, true⟩] := rfl

/-- Explicit field list of `clientTaskSchema`. -/
theorem clientTaskSchema_eq :
    clientTaskSchema =
      [⟨"title", zString, false⟩,
       ⟨"description", zNullable zString, true⟩,
       ⟨"domain", zString, false⟩,
       ⟨"priority", zString, true⟩,
       ⟨"estimatedHours", zNumberRange (mkRat 1 2) 24 (mkRat 1 2), false⟩,
       ⟨"actualHours", zNullable zString, true⟩,
       ⟨"dueDate", zString, true⟩] := rfl

/-- Explicit field list of `clientUpdateTaskSchema`: `completedAt` is
omitted but `isCompleted` remains a declared (optional) field. -/
theorem clientUpdateTaskSchema_eq :
    clientUpdateTaskSchema =
      [⟨"title", zString, true⟩,
       ⟨"description", zNullable zString, true⟩,
       ⟨"domain", zString, true⟩,
       ⟨"priority", zString, true⟩,
       ⟨"estimatedHours", zNumberRange (mkRat 1 2) 24 (mkRat 1 2), true⟩,
       ⟨"actualHours", zNumberRange (mkRat 1 10) 100 (mkRat 1 10), true⟩,
       ⟨"isCompleted", zBooleanField, true⟩,
       ⟨"dueDate", zString, true⟩] := rfl

/-- Explicit field list of `taskResponseSchema`: the two hour fields are
replaced in place by the transforms and, carrying no `.optional()`,
become required. -/
theorem taskResponseSchema_eq :
    taskResponseSchema =
      [⟨"id", zString, true⟩,
       ⟨"userId", zString, false⟩,
       ⟨"title", zString, false⟩,
       ⟨"description", zNullable zString, true⟩,
       ⟨"domain", zString, false⟩,
       ⟨"priority", zString, true⟩,
       ⟨"estimatedHours", numericFieldTransform, false⟩,
       ⟨"actualHours", actualHoursResponse, false⟩,
       ⟨"xpReward", zNumberInt, true⟩,
       ⟨"euReward", zNumberInt, true⟩,
       ⟨"isCompleted", zBooleanField, true⟩,
       ⟨"completedAt", zNullable zDateField, true⟩,
       ⟨"dueDate", zNullable zDateField, true⟩,
       ⟨"createdAt", zDateField, true⟩,
       ⟨"updatedAt", zDateField, true⟩] := rfl

/-- The value `numericFieldTransform` emits is never a string (it is a
number or `NaN`), so feeding its own output back into it fails. -/
theorem numericFieldTransform_parseFloat (s : String) :
    numericFieldTransform (parseFloat s) = none := by
  unfold parseFloat
  cases parseFloatQ s <;> rfl

/-- Characterization of a successful `numericFieldTransform`: the input
was a string and the output is its `parseFloat`. -/
theorem numericFieldTransform_eq_some {v w : Value}
    (h : numericFieldTransform v = some w) :
    ∃ s, v = Value.vStr s ∧ w = parseFloat s := by
  cases v <;> simp [numericFieldTransform] at h
  next s => exact ⟨s, rfl, h.symm⟩

/-- The numeric constant `0.5` of the client schemas as a fraction. -/
theorem mkRat_half : mkRat 1 2 = (1 / 2 : ℚ) := by
  norm_num [Rat.mkRat_eq_div]

/-- The numeric constant `0.1` of the client schemas as a fraction. -/
theorem mkRat_tenth : mkRat 1 10 = (1 / 10 : ℚ) := by
  norm_num [Rat.mkRat_eq_div]

/-- Shape of a client create parse as a function of the supplied
`estimatedHours` value: the payload's other fields validate, and the
result is exactly the `estimatedHours` check mapped over the rest. -/
theorem clientTaskSchema_parse_est (v : Value) :
    parseFields clientTaskSchema (clientCreatePayload v) =
      (zNumberRange (mkRat 1 2) 24 (mkRat 1 2) v).map
        (fun w => [("title", Value.vStr "t"), ("domain", Value.vStr "academic"),
                   ("estimatedHours", w)]) := by
  cases hz : zNumberRange (mkRat 1 2) 24 (mkRat 1 2) v with
  | none =>
    simp [clientTaskSchema_eq, clientCreatePayload, parseFields, applyField,
      lookupField, zString, hz]
  | some w =>
    simp [clientTaskSchema_eq, clientCreatePayload, parseFields, applyField,
      lookupField, zString, hz]

/-- Shape of a client update parse as a function of the supplied
`actualHours` value: with every other field optional and absent, the
result is exactly the `actualHours` check mapped into a one-field object. -/
theorem clientUpdateTaskSchema_parse_actual (v : Value) :
    parseFields clientUpdateTaskSchema (clientUpdatePayload v) =
      (zNumberRange (mkRat 1 10) 100 (mkRat 1 10) v).map
        (fun w => [("actualHours", w)]) := by
  cases hz : zNumberRange (mkRat 1 10) 100 (mkRat 1 10) v with
  | none =>
    simp [clientUpdateTaskSchema_eq, clientUpdatePayload, parseFields, applyField,
      lookupField, zString, hz]
  | some w =>
    simp [clientUpdateTaskSchema_eq, clientUpdatePayload, parseFields, applyField,
      lookupField, zString, hz]

/-- C1 (counterexample): the claim says `isCompleted` and `completedAt`
can never appear in the validated output of any client-writable schema
variant, but `updateTaskSchema` validates a payload supplying both and
keeps both in its output. -/
theorem C1_counterexample :
    parseFields updateTaskSchema
      [("isCompleted", Value.vBool true), ("completedAt", Value.vDate 0)] =
      some [("isCompleted", Value.vBool true), ("completedAt", Value.vDate 0)] := rfl

/-- C1 (amended): for every input, `xpReward` and `euReward` never
appear in the validated output of any of the four client-writable
variants; `isCompleted` and `completedAt` additionally never appear in
the output of `insertTaskSchema` or `clientTaskSchema`, and
`completedAt` never appears in the output of `clientUpdateTaskSchema` —
but `updateTaskSchema` passes `isCompleted` and `completedAt` through,
and `clientUpdateTaskSchema` passes `isCompleted` through. -/
theorem C1_server_fields_excluded (input : Obj) :
    (noKeyOut (parseFields insertTaskSchema input) "xpReward" = true ∧
     noKeyOut (parseFields insertTaskSchema input) "euReward" = true ∧
     noKeyOut (parseFields insertTaskSchema input) "isCompleted" = true ∧
     noKeyOut (parseFields insertTaskSchema input) "completedAt" = true) ∧
    (noKeyOut (parseFields clientTaskSchema input) "xpReward" = true ∧
     noKeyOut (parseFields clientTaskSchema input) "euReward" = true ∧
     noKeyOut (parseFields clientTaskSchema input) "isCompleted" = true ∧
     noKeyOut (parseFields clientTaskSchema input) "completedAt" = true) ∧
    (noKeyOut (parseFields updateTaskSchema input) "xpReward" = true ∧
     noKeyOut (parseFields updateTaskSchema input) "euReward" = true) ∧
    (noKeyOut (parseFields clientUpdateTaskSchema input) "xpReward" = true ∧
     noKeyOut (parseFields clientUpdateTaskSchema input) "euReward" = true ∧
     noKeyOut (parseFields clientUpdateTaskSchema input) "completedAt" = true) := by
  refine ⟨⟨?_, ?_, ?_, ?_⟩, ⟨?_, ?_, ?_, ?_⟩, ⟨?_, ?_⟩, ⟨?_, ?_, ?_⟩⟩ <;>
    exact noKeyOut_of_not_name (by decide) input

/-- C2: the insert schemas expose exactly the client-suppliable fields —
`insertUserSchema` drops `id` and keeps `username` and `password`, and
`insertTaskSchema` drops exactly `id`, `xpReward`, `euReward`,
`isCompleted`, `completedAt`, `createdAt` and `updatedAt`, retaining
every other Task column in declaration order. -/
theorem C2_insert_schema_fields :
    insertUserSchema.map Field.name = ["username", "password"] ∧
    insertTaskSchema.map Field.name =
      ["userId", "title", "description", "domain", "priority",
       "estimatedHours", "actualHours", "dueDate"] := ⟨rfl, rfl⟩

/-- C3: `updateTaskSchema` has partial-update semantics — every declared
field is optional, the payload with only a new title validates to exactly
that binding, a payload additionally carrying `userId` has it stripped,
and no input whatsoever can put `userId` into the validated output. -/
theorem C3_partial_update (input : Obj) :
    updateTaskSchema.all (fun f => f.opt) = true ∧
    parseFields updateTaskSchema [("title", Value.vStr "New title")] =
      some [("title", Value.vStr "New title")] ∧
    parseFields updateTaskSchema
      [("userId", Value.vStr "u"), ("title", Value.vStr "New title")] =
      some [("title", Value.vStr "New title")] ∧
    noKeyOut (parseFields updateTaskSchema input) "userId" = true :=
  ⟨rfl, rfl, rfl, noKeyOut_of_not_name (by decide) input⟩

/-- C4: client create validation of `estimatedHours` accepts exactly the
numbers in `[0.5, 24]` that are multiples of `0.5`; in particular `0.4`
and `24.5` and `1.25` fail while `0.5` and `24` succeed, on an
otherwise-valid create payload. -/
theorem C4_estimatedHours_validation (q : ℚ) :
    ((parseFields clientTaskSchema (clientCreatePayload (Value.vNum q))).isSome = true ↔
      (1 / 2 : ℚ) ≤ q ∧ q ≤ 24 ∧ isMultipleOf (1 / 2 : ℚ) q = true) ∧
    parseFields clientTaskSchema (clientCreatePayload (Value.vNum (mkRat 2 5))) = none ∧
    (parseFields clientTaskSchema (clientCreatePayload (Value.vNum (mkRat 1 2)))).isSome
      = true ∧
    (parseFields clientTaskSchema (clientCreatePayload (Value.vNum 24))).isSome = true ∧
    parseFields clientTaskSchema (clientCreatePayload (Value.vNum (mkRat 49 2))) = none ∧
    parseFields clientTaskSchema (clientCreatePayload (Value.vNum (mkRat 5 4))) = none := by
  refine ⟨?_, rfl, rfl, rfl, rfl, rfl⟩
  rw [clientTaskSchema_parse_est, isSome_map, zNumberRange, mkRat_half, isSome_ite,
    Bool.and_eq_true, Bool.and_eq_true, decide_eq_true_eq, decide_eq_true_eq, and_assoc]

/-- C5: client update validation of `actualHours` accepts exactly the
numbers in `[0.1, 100]` that are multiples of `0.1`; in particular `0`
and `100.05` fail while `100` succeeds, on an otherwise-valid update
payload. -/
theorem C5_actualHours_validation (q : ℚ) :
    ((parseFields clientUpdateTaskSchema (clientUpdatePayload (Value.vNum q))).isSome = true ↔
      (1 / 10 : ℚ) ≤ q ∧ q ≤ 100 ∧ isMultipleOf (1 / 10 : ℚ) q = true) ∧
    parseFields clientUpdateTaskSchema (clientUpdatePayload (Value.vNum 0)) = none ∧
    (parseFields clientUpdateTaskSchema (clientUpdatePayload (Value.vNum 100))).isSome
      = true ∧
    parseFields clientUpdateTaskSchema
      (clientUpdatePayload (Value.vNum (mkRat 2001 20))) = none := by
  refine ⟨?_, rfl, rfl, rfl⟩
  rw [clientUpdateTaskSchema_parse_actual, isSome_map, zNumberRange, mkRat_tenth,
    isSome_ite, Bool.and_eq_true, Bool.and_eq_true, decide_eq_true_eq,
    decide_eq_true_eq, and_assoc]

/-- C6: `clientTaskSchema` excludes `userId` — no input can put a
`userId` binding into the validated output, and a payload that supplies
one still validates with the field stripped. -/
theorem C6_clientTaskSchema_strips_userId (input : Obj) :
    noKeyOut (parseFields clientTaskSchema input) "userId" = true ∧
    parseFields clientTaskSchema
      [("userId", Value.vStr "evil"), ("title", Value.vStr "t"),
       ("domain", Value.vStr "academic"), ("estimatedHours", Value.vNum 1)] =
      some [("title", Value.vStr "t"), ("domain", Value.vStr "academic"),
        ("estimatedHours", Value.vNum 1)] :=
  ⟨noKeyOut_of_not_name (by decide) input, rfl⟩

/-- C7: the response transform turns the persisted decimal text
`estimatedHours = "2.5"` into the number `2.5` and passes
`actualHours = null` through as `null`. -/
theorem C7_response_transform_numbers :
    parseFields taskResponseSchema (persistedRow (Value.vStr "2.5") Value.vNull) =
      some [("userId", Value.vStr "u"), ("title", Value.vStr "t"),
        ("domain", Value.vStr "academic"),
        ("estimatedHours", Value.vNum (5 / 2 : ℚ)), ("actualHours", Value.vNull)] := by
  rw [show (5 / 2 : ℚ) = mkRat 5 2 by norm_num [Rat.mkRat_eq_div]]
  exact rfl

/-- C8 (counterexample): the claim says re-applying `taskResponseSchema`
to its own output does not error, but on the output of the transform of
a valid persisted row (whose `estimatedHours` is now a number, not a
string) the second application fails. -/
theorem C8_counterexample :
    parseFields taskResponseSchema (persistedRow (Value.vStr "2.5") Value.vNull) =
      some [("userId", Value.vStr "u"), ("title", Value.vStr "t"),
        ("domain", Value.vStr "academic"),
        ("estimatedHours", Value.vNum (mkRat 5 2)), ("actualHours", Value.vNull)] ∧
    parseFields taskResponseSchema
      [("userId", Value.vStr "u"), ("title", Value.vStr "t"),
       ("domain", Value.vStr "academic"),
       ("estimatedHours", Value.vNum (mkRat 5 2)), ("actualHours", Value.vNull)] =
      none := ⟨rfl, rfl⟩

/-- C8 (amended): the response transform is never idempotent — whenever
`taskResponseSchema` validates an input, applying it again to the output
always fails, because the output's `estimatedHours` is a number or `NaN`
while the transform requires a string. -/
theorem C8_reapply_fails (input out : Obj)
    (h : parseFields taskResponseSchema input = some out) :
    parseFields taskResponseSchema out = none := by
  have hf : (⟨"estimatedHours", numericFieldTransform, false⟩ : Field) ∈
      taskResponseSchema := by
    rw [taskResponseSchema_eq]
    exact List.Mem.tail _ (List.Mem.tail _ (List.Mem.tail _ (List.Mem.tail _
      (List.Mem.tail _ (List.Mem.tail _ (List.Mem.head _))))))
  have hnd : (taskResponseSchema.map Field.name).Nodup := by decide
  obtain ⟨v, w, hv, hw, hout⟩ := parse_required_out hnd hf rfl h
  obtain ⟨s, rfl, rfl⟩ := numericFieldTransform_eq_some hw
  exact parse_fail_of_field_fail hf hout (numericFieldTransform_parseFloat s)

/-- Witness for C8 (amended): the amended theorem applied to a concrete
valid persisted row and its transform output. -/
theorem C8_reapply_fails_witness :
    parseFields taskResponseSchema
      [("userId", Value.vStr "u"), ("title", Value.vStr "t"),
       ("domain", Value.vStr "academic"),
       ("estimatedHours", Value.vNum (mkRat 5 2)), ("actualHours", Value.vNull)] =
      none :=
  C8_reapply_fails (persistedRow (Value.vStr "2.5") Value.vNull)
    [("userId", Value.vStr "u"), ("title", Value.vStr "t"),
     ("domain", Value.vStr "academic"),
     ("estimatedHours", Value.vNum (mkRat 5 2)), ("actualHours", Value.vNull)]
    rfl

/-- C9 (counterexample): the claim says malformed numeric text must make
the response transform fail, but on a row whose `estimatedHours` is the
unparsable text `"abc"` the transform succeeds and yields `NaN`. -/
theorem C9_counterexample :
    parseFields taskResponseSchema (persistedRow (Value.vStr "abc") Value.vNull) =
      some [("userId", Value.vStr "u"), ("title", Value.vStr "t"),
        ("domain", Value.vStr "academic"),
        ("estimatedHours", Value.vNaN), ("actualHours", Value.vNull)] := rfl

/-- C9 (amended): the transform does not fail closed — it accepts every
string, silently coercing through `parseFloat`, so for every text value
the whole response parse of a persisted row succeeds, and unparsable
text such as `"abc"` yields `NaN` rather than a validation failure. -/
theorem C9_transform_never_fails (s : String) :
    numericFieldTransform (Value.vStr s) = some (parseFloat s) ∧
    (parseFields taskResponseSchema (persistedRow (Value.vStr s) Value.vNull)).isSome
      = true ∧
    parseFloat "abc" = Value.vNaN := ⟨rfl, rfl, rfl⟩

/-- C10: in the response transform, the `actualHours` branch maps the
empty string (the only falsy string) to `null` and passes every
non-empty string to `parseFloat`; a persisted row with
`actualHours = ""` therefore transforms to `null`. -/
theorem C10_empty_actualHours_null (s : String) :
    actualHoursResponse (Value.vStr "") = some Value.vNull ∧
    actualHoursResponse (Value.vStr s) =
      some (if s = "" then Value.vNull else parseFloat s) ∧
    parseFields taskResponseSchema (persistedRow (Value.vStr "1.0") (Value.vStr "")) =
      some [("userId", Value.vStr "u"), ("title", Value.vStr "t"),
        ("domain", Value.vStr "academic"),
        ("estimatedHours", Value.vNum 1), ("actualHours", Value.vNull)] :=
  ⟨rfl, rfl, rfl⟩

end Batcave
